import Mathlib

/-!
Shallow embedding of `lib/copter.js` (the flight-phase state machine and its
coupled control loop).  JavaScript numbers are modelled as exact rationals;
`Math.round` is modelled as floor of (x + 1/2), which agrees with JavaScript's
round-half-up on every rational.  The initially empty `currentSetpoint` object
(`this.currentSetpoint = {}`) is modelled as `Option Setpoint`, `none` standing
for the not-yet-written object.
-/

namespace Aerogel

/-- `var MAX_THRUST = 60000;` -/
def MAX_THRUST : ℚ := 60000

/-- `var MIN_THRUST = 10001;` -/
def MIN_THRUST : ℚ := 10001

/-- `var ε = 0.01;` — the slop to tolerate in goals vs current state. -/
def ε : ℚ := 1/100

/-- JavaScript `Math.round`: round half toward positive infinity. -/
def jsRound (q : ℚ) : ℤ := ⌊q + 1/2⌋

/-- A 4-tuple (roll, pitch, yaw, thrust) as used for `nextSetpoint` and
`currentSetpoint`. -/
structure Setpoint where
  roll : ℚ
  pitch : ℚ
  yaw : ℚ
  thrust : ℚ
deriving DecidableEq

/-- The `goal` record of the Copter constructor. -/
structure Goal where
  roll : ℚ
  pitch : ℚ
  yaw : ℚ
  thrust : ℚ
  x : ℚ
  y : ℚ
  z : ℚ
deriving DecidableEq

/-- The seven states declared in `buildStates`. -/
inductive Phase where
  | setup
  | connected
  | waiting
  | takingOff
  | hovering
  | moving
  | landing
deriving DecidableEq

/-- The eight events declared in `buildStates`. -/
inductive Event where
  | connect
  | ready
  | takeoff
  | stabilize
  | move
  | settle
  | land
  | landed
deriving DecidableEq

/-- Source phase of each event, from the `.event(name, from, to)` lines of
`buildStates`. -/
def eventSource : Event → Phase
  | .connect => .setup
  | .ready => .connected
  | .takeoff => .waiting
  | .stabilize => .takingOff
  | .move => .hovering
  | .settle => .moving
  | .land => .hovering
  | .landed => .landing

/-- Destination phase of each event, from the `.event(name, from, to)` lines of
`buildStates`. -/
def eventDest : Event → Phase
  | .connect => .connected
  | .ready => .waiting
  | .takeoff => .takingOff
  | .stabilize => .hovering
  | .move => .moving
  | .settle => .hovering
  | .land => .landing
  | .landed => .waiting

/-- A stabilizer telemetry sample (fields read by
`handleStabilizerTelemetry`). -/
structure StabSample where
  roll : ℚ
  pitch : ℚ
  yaw : ℚ
  thrust : ℚ
deriving DecidableEq

/-- An accelerometer telemetry sample (only `z` is read by
`handleAccTelemetry`). -/
structure AccSample where
  z : ℚ
deriving DecidableEq

/-- `this.telemetry`: the last-received sample per channel, each `none` until
first receipt.  Motor and gyro samples are never inspected, so their payload is
modelled as a single rational. -/
structure Telemetry where
  stabilizer : Option StabSample
  motor : Option ℚ
  acc : Option AccSample
  gyro : Option ℚ
deriving DecidableEq

/-- The mutable state of one `Copter` object, together with the observable
effects the claims talk about: the list of setpoints handed to the driver
(`egress`), whether each timer handle is live, and the values with which the
`takeoff()` / `land()` deferreds have been resolved. -/
structure CopterState where
  phase : Phase
  xmode : Bool
  currentSetpoint : Option Setpoint
  nextSetpoint : Setpoint
  goal : Goal
  telemetry : Telemetry
  pulseActive : Bool
  hoverTimerActive : Bool
  flightTimerPending : Bool
  egress : List Setpoint
  takeoffResolved : List String
  landResolved : List Phase
deriving DecidableEq

/-- The Copter constructor's initial state. -/
def initState : CopterState where
  phase := .setup
  xmode := false
  currentSetpoint := none
  nextSetpoint := ⟨0, 0, 0, 0⟩
  goal := ⟨0, 0, 0, 0, 0, 0, 0⟩
  telemetry := ⟨none, none, none, none⟩
  pulseActive := false
  hoverTimerActive := false
  flightTimerPending := false
  egress := []
  takeoffResolved := []
  landResolved := []

/-- `Copter.prototype.setpoint`: apply the X-mode transform if enabled, store
the result as `currentSetpoint`, and forward it to the driver.  Note that the
source assigns `roll` before computing `pitch`, so the transformed `pitch`
reads the already-transformed `roll`. -/
def setpoint (s : CopterState) (roll pitch yaw thrust : ℚ) : CopterState :=
  let roll2 := if s.xmode then (0.707 : ℚ) * (roll - pitch) else roll
  let pitch2 := if s.xmode then (0.707 : ℚ) * (roll2 + pitch) else pitch
  let sp : Setpoint := ⟨roll2, pitch2, yaw, thrust⟩
  { s with currentSetpoint := some sp, egress := s.egress ++ [sp] }

/-- `Copter.prototype.pulse`: forward `nextSetpoint` through `setpoint`. -/
def pulse (s : CopterState) : CopterState :=
  setpoint s s.nextSetpoint.roll s.nextSetpoint.pitch s.nextSetpoint.yaw
    s.nextSetpoint.thrust

/-- `function deltaToGoal(current, goal)`. -/
def deltaToGoal (current goal : ℚ) : ℚ :=
  let diff := goal - current
  if |diff| > ε then diff else 0

/-- `Copter.prototype.setRoll`: stage into `nextSetpoint`. -/
def setRoll (s : CopterState) (r : ℚ) : CopterState :=
  { s with nextSetpoint := { s.nextSetpoint with roll := r } }

/-- `Copter.prototype.setPitch`: stage into `nextSetpoint`. -/
def setPitch (s : CopterState) (p : ℚ) : CopterState :=
  { s with nextSetpoint := { s.nextSetpoint with pitch := p } }

/-- `Copter.prototype.setYaw`: stage into `nextSetpoint`. -/
def setYaw (s : CopterState) (y : ℚ) : CopterState :=
  { s with nextSetpoint := { s.nextSetpoint with yaw := y } }

/-- The clamp chain of `Copter.prototype.setThrust` for a numeric argument. -/
def clampThrust (t : ℚ) : ℚ :=
  if t < MIN_THRUST then MIN_THRUST
  else if t > MAX_THRUST then MAX_THRUST
  else t

/-- `Copter.prototype.setThrust` applied to a numeric argument (the internal
assignments `this.thrust = ...` always pass numbers). -/
def setThrustNum (s : CopterState) (t : ℚ) : CopterState :=
  { s with nextSetpoint :=
      { s.nextSetpoint with thrust := (jsRound (clampThrust t) : ℚ) } }

/-- `Copter.prototype.setThrust`: a non-numeric argument (`none`) is coerced to
10001, a numeric one is clamped to [10001, 60000]; the result is rounded and
staged into `nextSetpoint.thrust`. -/
def setThrust (s : CopterState) (t : Option ℚ) : CopterState :=
  setThrustNum s (t.getD 10001)

/-- `Copter.prototype.getThrust`: read `currentSetpoint.thrust` (undefined —
`none` — before the first `setpoint` call). -/
def getThrust (s : CopterState) : Option ℚ :=
  s.currentSetpoint.map Setpoint.thrust

/-- `Copter.prototype.getRoll`. -/
def getRoll (s : CopterState) : Option ℚ :=
  s.currentSetpoint.map Setpoint.roll

/-- `Copter.prototype.enterTakeoff`: set the altitude goal and thrust bias and
start the pulse timer. -/
def enterTakeoff (s : CopterState) : CopterState :=
  { s with goal := { s.goal with z := 1.5, thrust := 35000 },
           pulseActive := true }

/-- `Copter.prototype.enterHovering`. -/
def enterHovering (s : CopterState) : CopterState :=
  { s with goal := { s.goal with z := 1.0 } }

/-- `Copter.prototype.leaveLanding`: clear the landing-ramp and pulse timers,
then issue a zero setpoint. -/
def leaveLanding (s : CopterState) : CopterState :=
  setpoint { s with hoverTimerActive := false, pulseActive := false } 0 0 0 0

/-- Enter hooks per destination phase, from `buildStates` (`enterSetup`,
`enterWaiting`, `enterMoving` and `enterLanding` have empty bodies). -/
def enterHook : Phase → CopterState → CopterState
  | .takingOff => enterTakeoff
  | .hovering => enterHovering
  | _ => id

/-- Leave hooks per source phase, from `buildStates`: only `landing` declares
one. -/
def leaveHook : Phase → CopterState → CopterState
  | .landing => leaveLanding
  | _ => id

/-- An `InvalidTransition` failure: the current phase, the attempted event,
and the event's required source phase. -/
structure InvalidTransition where
  current : Phase
  event : Event
  required : Phase
deriving DecidableEq

/-- Modelled from the spec: the `state-machine` npm library that `buildStates`
configures is not part of the repository sources.  Per spec §4.1, an event is
only valid from its declared source phase; a valid transition runs the source
phase's leave hook, updates the phase, then runs the destination phase's enter
hook; an invalid one fails with `InvalidTransition` (current phase, attempted
event, required source) and leaves the machine in its prior phase.  The
transition table and the hooks themselves come from `buildStates` in the
source. -/
def fireEvent (e : Event) (s : CopterState) : Except InvalidTransition CopterState :=
  if s.phase = eventSource e then
    Except.ok (enterHook (eventDest e) { leaveHook s.phase s with phase := eventDest e })
  else
    Except.error ⟨s.phase, e, eventSource e⟩

/-- Fire an event, keeping the prior state when the transition is invalid (the
failure is reported to the caller; the machine itself is unchanged). -/
def fireEventD (e : Event) (s : CopterState) : CopterState :=
  match fireEvent e s with
  | .ok s1 => s1
  | .error _ => s

/-- `Copter.prototype.handleStabilizerTelemetry`: store the snapshot; in
`taking-off`, `moving` and `hovering` zero the roll/pitch/yaw accumulators
through the public setters (the four `deltaToGoal` values the source computes
are never used).  Every other phase only stores the snapshot. -/
def handleStabilizerTelemetry (s : CopterState) (data : StabSample) : CopterState :=
  let s := { s with telemetry := { s.telemetry with stabilizer := some data } }
  match s.phase with
  | .takingOff | .moving | .hovering => setYaw (setPitch (setRoll s 0) 0) 0
  | _ => s

/-- `Copter.prototype.handleMotorTelemetry`: store the snapshot (both switch
branches are empty). -/
def handleMotorTelemetry (s : CopterState) (data : ℚ) : CopterState :=
  { s with telemetry := { s.telemetry with motor := some data } }

/-- `Copter.prototype.handleAccTelemetry`: store the snapshot; in `taking-off`
and `hovering`, if the altitude deviation is nonzero, bump `goal.thrust` by
`1250 * zDelta` (unclamped) and assign the result to `this.thrust`, i.e. stage
it through the public thrust setter. -/
def handleAccTelemetry (s : CopterState) (data : AccSample) : CopterState :=
  let s := { s with telemetry := { s.telemetry with acc := some data } }
  match s.phase with
  | .takingOff | .hovering =>
    let zDelta := deltaToGoal data.z s.goal.z
    if zDelta ≠ 0 then
      let s1 := { s with goal := { s.goal with thrust := s.goal.thrust + 1250 * zDelta } }
      setThrustNum s1 s1.goal.thrust
    else s
  | _ => s

/-- `Copter.prototype.handleGyroTelemetry`: store the snapshot. -/
def handleGyroTelemetry (s : CopterState) (data : ℚ) : CopterState :=
  { s with telemetry := { s.telemetry with gyro := some data } }

/-- The delay of `setTimeout(stopThrustingUp, 2000)` in `takeoff`, in
milliseconds. -/
def flightDelayMS : ℕ := 2000

/-- The `stepMS` period of the landing ramp interval, in milliseconds. -/
def landStepMS : ℕ := 250

/-- The `thrustStep` of the landing ramp. -/
def landThrustStep : ℚ := 1000

/-- The period of the pulse interval started in `enterTakeoff`, in
milliseconds. -/
def pulseMS : ℕ := 100

/-- `Copter.prototype.takeoff`: fire the `takeoff` event (entering
`taking-off` runs `enterTakeoff`), then arm the 2000 ms flight timer whose
callback will fire `stabilize` and resolve the returned promise. -/
def takeoff (s : CopterState) : CopterState :=
  match fireEvent .takeoff s with
  | .ok s1 => { s1 with flightTimerPending := true }
  | .error _ => s

/-- `function stopThrustingUp()` inside `takeoff`: fire `stabilize`, then
resolve the deferred with `'OK'`. -/
def stopThrustingUp (s : CopterState) : CopterState :=
  match fireEvent .stabilize s with
  | .ok s1 => { s1 with takeoffResolved := s1.takeoffResolved ++ ["OK"] }
  | .error _ => s

/-- The flight timer firing: a `setTimeout`, so the pending flag is consumed
before the callback body runs. -/
def flightTimerFire (s : CopterState) : CopterState :=
  if s.flightTimerPending then stopThrustingUp { s with flightTimerPending := false }
  else s

/-- `Copter.prototype.land`: fire the `land` event, clear the flight timer,
and start the 250 ms landing-ramp interval (`hoverTimer`). -/
def land (s : CopterState) : CopterState :=
  match fireEvent .land s with
  | .ok s1 => { s1 with flightTimerPending := false, hoverTimerActive := true }
  | .error _ => s

/-- The final step of `landCurve` once the floor is reached: fire the
`landed` event and resolve the deferred of `land()` with the resulting
phase (`self.copterStates.currentState()`). -/
def fireLanded (s1 : CopterState) : CopterState :=
  match fireEvent .landed s1 with
  | .ok s2 => { s2 with landResolved := s2.landResolved ++ [s2.phase] }
  | .error _ => s1

/-- `function landCurve()` inside `land`: read `self.thrust` (the getter, i.e.
`currentSetpoint.thrust`), step it down by 1000 floored at `MIN_THRUST`, write
it into `goal.thrust` and through the thrust setter; when it sits at the
floor, fire `landed` and resolve the deferred with the resulting phase.  When
`currentSetpoint` has never been written, the getter yields `undefined` and
every arithmetic result is NaN, which compares false against `MIN_THRUST`
forever; that stalled branch is modelled as the identity step. -/
def landCurve (s : CopterState) : CopterState :=
  match s.currentSetpoint with
  | none => s
  | some sp =>
    let thrust0 := sp.thrust - landThrustStep
    let thrust := if thrust0 ≤ MIN_THRUST then MIN_THRUST else thrust0
    let s1 := setThrustNum { s with goal := { s.goal with thrust := thrust } } thrust
    if thrust = MIN_THRUST then fireLanded s1
    else s1

/-- The landing-ramp interval firing (no tick once the handle is cleared). -/
def hoverTimerFire (s : CopterState) : CopterState :=
  if s.hoverTimerActive then landCurve s else s

/-- The pulse interval firing (no tick once the handle is cleared). -/
def pulseFire (s : CopterState) : CopterState :=
  if s.pulseActive then pulse s else s

/-- `Copter.prototype.hover`: fire `stabilize` and resolve `'OK'` (the
resolution is unconditional and not tracked in the state). -/
def hover (s : CopterState) : CopterState :=
  fireEventD .stabilize s

/-- One 250 ms period of the landing ramp: the ramp tick followed by the pulse
ticks that the 100 ms pulse interval fires before the next ramp tick (the
pulse forwards `nextSetpoint` into `currentSetpoint`; firing it once has the
same effect on the state's setpoints as firing it twice). -/
def rampCycle (s : CopterState) : CopterState :=
  pulseFire (hoverTimerFire s)

/-- The events that drive a `Copter`: its public API calls, its two timers,
the four telemetry callbacks, and assignments to its plain public fields. -/
inductive Action where
  | connectStart
  | connectDone
  | takeoffCall
  | flightFire
  | landCall
  | hoverCall
  | pulseTick
  | rampTick
  | xmodeSet (b : Bool)
  | rollSet (v : ℚ)
  | pitchSet (v : ℚ)
  | yawSet (v : ℚ)
  | thrustSet (t : Option ℚ)
  | stabTel (d : StabSample)
  | motorTel (d : ℚ)
  | accTel (d : AccSample)
  | gyroTel (d : ℚ)

/-- The effect of one action on the copter state.  `connectStart` is the
`connect` event fired synchronously inside `connect()`; `connectDone` is the
`ready` event fired once the driver's connect promise resolves. -/
def stepAction : Action → CopterState → CopterState
  | .connectStart, s => fireEventD .connect s
  | .connectDone, s => fireEventD .ready s
  | .takeoffCall, s => takeoff s
  | .flightFire, s => flightTimerFire s
  | .landCall, s => land s
  | .hoverCall, s => hover s
  | .pulseTick, s => pulseFire s
  | .rampTick, s => hoverTimerFire s
  | .xmodeSet b, s => { s with xmode := b }
  | .rollSet v, s => setRoll s v
  | .pitchSet v, s => setPitch s v
  | .yawSet v, s => setYaw s v
  | .thrustSet t, s => setThrust s t
  | .stabTel d, s => handleStabilizerTelemetry s d
  | .motorTel d, s => handleMotorTelemetry s d
  | .accTel d, s => handleAccTelemetry s d
  | .gyroTel d, s => handleGyroTelemetry s d

/-- The states a `Copter` can reach from construction under any interleaving
of API calls, timer ticks and telemetry deliveries. -/
inductive Reachable : CopterState → Prop where
  | init : Reachable initState
  | step (a : Action) {s : CopterState} : Reachable s → Reachable (stepAction a s)

/-! ## Helper lemmas -/

theorem jsRound_intCast (n : ℤ) : jsRound (n : ℚ) = n := by
  unfold jsRound
  refine Int.floor_eq_iff.mpr ⟨by norm_num, by norm_num⟩

theorem jsRound_10001 : jsRound (10001 : ℚ) = 10001 := by
  have h := jsRound_intCast 10001
  norm_num at h
  exact h

theorem jsRound_60000 : jsRound (60000 : ℚ) = 60000 := by
  have h := jsRound_intCast 60000
  norm_num at h
  exact h

theorem clampThrust_of_mem (t : ℚ) (h1 : ¬ t < 10001) (h2 : ¬ t > 60000) :
    clampThrust t = t := by
  unfold clampThrust MIN_THRUST MAX_THRUST
  rw [if_neg h1, if_neg h2]

theorem clampThrust_low (t : ℚ) (h1 : t < 10001) : clampThrust t = 10001 := by
  unfold clampThrust MIN_THRUST
  rw [if_pos h1]

theorem clampThrust_high (t : ℚ) (h1 : ¬ t < 10001) (h2 : t > 60000) :
    clampThrust t = 60000 := by
  unfold clampThrust MIN_THRUST MAX_THRUST
  rw [if_neg h1, if_pos h2]

theorem fireEventD_spec (e : Event) (s : CopterState) :
    fireEventD e s =
      if s.phase = eventSource e then
        enterHook (eventDest e) { leaveHook s.phase s with phase := eventDest e }
      else s := by
  unfold fireEventD fireEvent
  by_cases hp : s.phase = eventSource e <;> simp [hp]

theorem fireEvent_ok (e : Event) (s : CopterState) (h : s.phase = eventSource e) :
    fireEvent e s =
      Except.ok (enterHook (eventDest e) { leaveHook s.phase s with phase := eventDest e }) := by
  unfold fireEvent
  rw [if_pos h]

theorem leaveLanding_spec (s : CopterState) :
    leaveLanding s =
      { s with hoverTimerActive := false,
               pulseActive := false,
               currentSetpoint := some ⟨0, 0, 0, 0⟩,
               egress := s.egress ++ [⟨0, 0, 0, 0⟩] } := by
  unfold leaveLanding setpoint
  cases hx : s.xmode <;> simp

/-! ## Claim theorems -/

/-- Claim C8: the deviation helper `deltaToGoal(current, goal)` returns 0 when
the goal and the current value are within the tolerance 0.01 of each other and
the signed difference `goal - current` otherwise; in particular
`deltaToGoal a a = 0` and `deltaToGoal a (a + 0.02) = 0.02` for every `a`. -/
theorem C8_deviation_spec (a b : ℚ) :
    (if |b - a| ≤ ε then deltaToGoal a b = 0 else deltaToGoal a b = b - a) ∧
    deltaToGoal a a = 0 ∧
    deltaToGoal a (a + 2/100) = 2/100 := by
  refine ⟨?_, ?_, ?_⟩
  · split_ifs with h
    · simp [deltaToGoal, not_lt.mpr h]
    · simp [deltaToGoal, not_le.mp h]
  · simp [deltaToGoal, ε]
  · have h2 : a + 2/100 - a = 2/100 := by ring
    have h3 : |(2 : ℚ)/100| = 2/100 := abs_of_nonneg (by norm_num)
    simp only [deltaToGoal, h2, h3, ε]
    norm_num

/-- Claim C7: the public thrust setter stages 10001 for a non-numeric input,
10001 for inputs below 10001, 60000 for inputs above 60000, and the rounded
input for inputs in [10001, 60000]; it writes only `nextSetpoint.thrust`,
leaving `currentSetpoint`, `goal` and the other staged axes untouched, and the
thrust getter reads `currentSetpoint.thrust`. -/
theorem C7_thrust_setter (s : CopterState) (t : Option ℚ) :
    (setThrust s t).nextSetpoint.thrust =
      t.elim (10001 : ℚ) (fun v =>
        if v < 10001 then (10001 : ℚ)
        else if v > 60000 then (60000 : ℚ)
        else (jsRound v : ℚ)) ∧
    (setThrust s t).currentSetpoint = s.currentSetpoint ∧
    (setThrust s t).goal = s.goal ∧
    (setThrust s t).nextSetpoint.roll = s.nextSetpoint.roll ∧
    (setThrust s t).nextSetpoint.pitch = s.nextSetpoint.pitch ∧
    (setThrust s t).nextSetpoint.yaw = s.nextSetpoint.yaw ∧
    (setThrust s t).phase = s.phase ∧
    getThrust (setThrust s t) = s.currentSetpoint.map Setpoint.thrust := by
  refine ⟨?_, rfl, rfl, rfl, rfl, rfl, rfl, rfl⟩
  have hc : ((jsRound (clampThrust (10001 : ℚ)) : ℤ) : ℚ) = 10001 := by
    rw [clampThrust_of_mem _ (by norm_num) (by norm_num), jsRound_10001]
    norm_num
  cases t with
  | none => simpa [setThrust, setThrustNum, Option.getD] using hc
  | some v =>
    simp only [setThrust, setThrustNum, Option.getD, Option.elim]
    by_cases h1 : v < 10001
    · rw [if_pos h1, clampThrust_low _ h1, jsRound_10001]
      norm_num
    · rw [if_neg h1]
      by_cases h2 : v > 60000
      · rw [if_pos h2, clampThrust_high _ h1 h2, jsRound_60000]
        norm_num
      · rw [if_neg h2, clampThrust_of_mem _ h1 h2]

/-- Claim C1 (code bug): with X-mode enabled, `setpoint` overwrites `roll`
before computing the transformed `pitch`, so for roll=10, pitch=4 it stores
roll' = 0.707*(10-4) = 4.242 as specified but
pitch' = 0.707*(4.242+4) = 5.827094, more than 4 away from the specified
0.707*(10+4) = 9.898; with X-mode disabled the 4-tuple passes through
unchanged. -/
theorem C1_xmode_evaluation :
    (setpoint { initState with xmode := true } 10 4 0 0).currentSetpoint
        = some ⟨4242/1000, 5827094/1000000, 0, 0⟩ ∧
    |(4242/1000 : ℚ) - 4242/1000| ≤ 1/1000 ∧
    ¬ |(5827094/1000000 : ℚ) - 9898/1000| ≤ 1/1000 ∧
    (setpoint initState 10 4 7 9).currentSetpoint = some ⟨10, 4, 7, 9⟩ := by
  refine ⟨?_, ?_, ?_, ?_⟩
  · simp only [setpoint]
    norm_num
  · norm_num
  · norm_num [abs_le]
  · simp only [setpoint, initState]
    norm_num

/-- Claim C9: the `leaveLanding` hook clears both the landing-ramp timer and
the pulse timer and sends exactly one zero setpoint through the pipeline
(stored as `currentSetpoint` and appended to the egress log); every other part
of the state — goal, staged setpoint, telemetry snapshots, phase, flight
timer, promise resolutions, X-mode flag — is untouched. -/
theorem C9_leave_landing (s : CopterState) :
    (leaveLanding s).pulseActive = false ∧
    (leaveLanding s).hoverTimerActive = false ∧
    (leaveLanding s).currentSetpoint = some ⟨0, 0, 0, 0⟩ ∧
    (leaveLanding s).egress = s.egress ++ [⟨0, 0, 0, 0⟩] ∧
    (leaveLanding s).goal = s.goal ∧
    (leaveLanding s).nextSetpoint = s.nextSetpoint ∧
    (leaveLanding s).telemetry = s.telemetry ∧
    (leaveLanding s).phase = s.phase ∧
    (leaveLanding s).flightTimerPending = s.flightTimerPending ∧
    (leaveLanding s).takeoffResolved = s.takeoffResolved ∧
    (leaveLanding s).landResolved = s.landResolved ∧
    (leaveLanding s).xmode = s.xmode := by
  rw [leaveLanding_spec]
  exact ⟨rfl, rfl, rfl, rfl, rfl, rfl, rfl, rfl, rfl, rfl, rfl, rfl⟩

/-- Claim C10: the stabilizer telemetry handler always stores the snapshot;
while the phase is taking-off, moving or hovering it additionally zeroes the
staged roll, pitch and yaw through the public setters (discarding any
operator-commanded values), leaving `nextSetpoint.thrust`, the goal, the
current setpoint and the phase unchanged; in every other phase it only stores
the snapshot. -/
theorem C10_stabilizer_zeroing (s : CopterState) (d : StabSample) :
    (handleStabilizerTelemetry s d).telemetry.stabilizer = some d ∧
    (if s.phase = Phase.takingOff ∨ s.phase = Phase.moving ∨ s.phase = Phase.hovering
      then (handleStabilizerTelemetry s d).nextSetpoint = ⟨0, 0, 0, s.nextSetpoint.thrust⟩
      else (handleStabilizerTelemetry s d).nextSetpoint = s.nextSetpoint) ∧
    (handleStabilizerTelemetry s d).goal = s.goal ∧
    (handleStabilizerTelemetry s d).currentSetpoint = s.currentSetpoint ∧
    (handleStabilizerTelemetry s d).phase = s.phase ∧
    (handleStabilizerTelemetry s d).egress = s.egress ∧
    (handleStabilizerTelemetry s d).telemetry.motor = s.telemetry.motor ∧
    (handleStabilizerTelemetry s d).telemetry.acc = s.telemetry.acc ∧
    (handleStabilizerTelemetry s d).telemetry.gyro = s.telemetry.gyro := by
  cases hp : s.phase <;>
    simp [handleStabilizerTelemetry, setRoll, setPitch, setYaw, hp]

/-- Claim C2: invoking any of the eight events from a phase that is not the
event's declared source fails with an `InvalidTransition` error naming the
current phase, the attempted event, and the required source phase, and the
machine keeps its prior state. -/
theorem C2_invalid_transition (s : CopterState) (e : Event)
    (h : s.phase ≠ eventSource e) :
    fireEvent e s = Except.error ⟨s.phase, e, eventSource e⟩ ∧
    fireEventD e s = s := by
  have h1 : fireEvent e s = Except.error ⟨s.phase, e, eventSource e⟩ := by
    unfold fireEvent
    exact if_neg h
  refine ⟨h1, ?_⟩
  unfold fireEventD
  rw [h1]

/-- Claim C2, witnessed: firing `takeoff` from the initial `setup` phase
reports the invalid transition and leaves the state unchanged. -/
theorem C2_invalid_transition_witness :
    initState.phase ≠ eventSource Event.takeoff ∧
    (fireEvent Event.takeoff initState
        = Except.error ⟨initState.phase, Event.takeoff, eventSource Event.takeoff⟩ ∧
      fireEventD Event.takeoff initState = initState) :=
  ⟨by decide, C2_invalid_transition initState Event.takeoff (by decide)⟩

/-- A taking-off state with goal altitude 1.5, goal thrust 35000, and current
(getter-visible) thrust 35000, as in the spec's takeoff scenario. -/
def c4Start : CopterState :=
  { initState with
    phase := .takingOff,
    goal := { initState.goal with z := 3/2, thrust := 35000 },
    currentSetpoint := some ⟨0, 0, 0, 35000⟩ }

/-- Claim C4, counterexample: an accelerometer sample `{z: 0.5}` in
`taking-off` with goal z 1.5 raises `goal.thrust` from 35000 to 36250, but the
value the public thrust getter returns is still the untouched
`currentSetpoint.thrust` of 35000, not the updated goal thrust: the "mirror"
write goes through the setter into `nextSetpoint.thrust`. -/
theorem C4_counterexample :
    (handleAccTelemetry c4Start ⟨1/2⟩).goal.thrust = 36250 ∧
    (handleAccTelemetry c4Start ⟨1/2⟩).nextSetpoint.thrust = 36250 ∧
    getThrust (handleAccTelemetry c4Start ⟨1/2⟩) = some 35000 ∧
    ¬ getThrust (handleAccTelemetry c4Start ⟨1/2⟩)
        = some (handleAccTelemetry c4Start ⟨1/2⟩).goal.thrust := by
  have hne : deltaToGoal (1/2) ((3:ℚ)/2) = 1 := by
    have e : (3:ℚ)/2 - 1/2 = 1 := by norm_num
    show (if |(3:ℚ)/2 - 1/2| > ε then (3:ℚ)/2 - 1/2 else 0) = 1
    rw [e, abs_one, if_pos (by norm_num [ε] : (1:ℚ) > ε)]
  have hr : ((jsRound (clampThrust ((35000 : ℚ) + 1250 * 1)) : ℤ) : ℚ) = 36250 := by
    have e1 : (35000 : ℚ) + 1250 * 1 = 36250 := by norm_num
    rw [e1, clampThrust_of_mem _ (by norm_num) (by norm_num)]
    exact_mod_cast jsRound_intCast 36250
  have h0 : handleAccTelemetry c4Start ⟨1/2⟩ =
      setThrustNum
        { phase := Phase.takingOff, xmode := false,
          currentSetpoint := some ⟨0, 0, 0, 35000⟩,
          nextSetpoint := ⟨0, 0, 0, 0⟩,
          goal := ⟨0, 0, 0, 35000 + 1250 * 1, 0, 0, 3/2⟩,
          telemetry := ⟨none, none, some ⟨1/2⟩, none⟩,
          pulseActive := false, hoverTimerActive := false, flightTimerPending := false,
          egress := [], takeoffResolved := [], landResolved := [] }
        (35000 + 1250 * 1) := by
    simp only [handleAccTelemetry, c4Start, initState]
    rw [hne, if_pos (by norm_num : (1:ℚ) ≠ 0)]
  rw [h0]
  refine ⟨by norm_num [setThrustNum], ?_, rfl, by norm_num [setThrustNum, getThrust]⟩
  simpa [setThrustNum] using hr

/-- Claim C4, amended: for an accelerometer sample delivered in `taking-off`
or `hovering`, if the altitude deviation exceeds the 0.01 tolerance then
`goal.thrust` grows by exactly `1250 * (goal.z - sample.z)` with no clamp on
`goal.thrust` itself, and the updated value is staged through the public
thrust setter into `nextSetpoint.thrust` (clamped to [10001, 60000] and
rounded); the current setpoint — the value the public thrust getter returns —
is unchanged.  Within tolerance, nothing but the snapshot changes. -/
theorem C4_acc_feedback (s : CopterState) (d : AccSample)
    (hph : s.phase = Phase.takingOff ∨ s.phase = Phase.hovering) :
    (if |s.goal.z - d.z| > ε then
        (handleAccTelemetry s d).goal.thrust
            = s.goal.thrust + 1250 * (s.goal.z - d.z) ∧
        (handleAccTelemetry s d).nextSetpoint.thrust
            = (jsRound (clampThrust (s.goal.thrust + 1250 * (s.goal.z - d.z))) : ℚ) ∧
        (handleAccTelemetry s d).nextSetpoint.roll = s.nextSetpoint.roll ∧
        (handleAccTelemetry s d).nextSetpoint.pitch = s.nextSetpoint.pitch ∧
        (handleAccTelemetry s d).nextSetpoint.yaw = s.nextSetpoint.yaw
      else
        (handleAccTelemetry s d).goal.thrust = s.goal.thrust ∧
        (handleAccTelemetry s d).nextSetpoint = s.nextSetpoint) ∧
    (handleAccTelemetry s d).currentSetpoint = s.currentSetpoint ∧
    getThrust (handleAccTelemetry s d) = getThrust s ∧
    (handleAccTelemetry s d).phase = s.phase ∧
    (handleAccTelemetry s d).goal.z = s.goal.z ∧
    (handleAccTelemetry s d).telemetry.acc = some d := by
  have hε : (0 : ℚ) < ε := by norm_num [ε]
  rcases hph with hp | hp <;>
  · by_cases h : |s.goal.z - d.z| > ε
    · have hne : deltaToGoal d.z s.goal.z = s.goal.z - d.z := by
        unfold deltaToGoal
        rw [if_pos h]
      have hnz : s.goal.z - d.z ≠ 0 := by
        intro h0
        rw [h0, abs_zero] at h
        exact absurd h (not_lt.mpr (le_of_lt hε))
      simp [handleAccTelemetry, hp, hne, hnz, setThrustNum, getThrust, if_pos h]
    · have hz : deltaToGoal d.z s.goal.z = 0 := by
        unfold deltaToGoal
        rw [if_neg h]
      simp [handleAccTelemetry, hp, hz, getThrust, if_neg h]

/-- Claim C4, amended, witnessed at the spec's scenario input. -/
theorem C4_acc_feedback_witness :
    (c4Start.phase = Phase.takingOff ∨ c4Start.phase = Phase.hovering) ∧
    ((if |c4Start.goal.z - (AccSample.mk (1/2)).z| > ε then
        (handleAccTelemetry c4Start ⟨1/2⟩).goal.thrust
            = c4Start.goal.thrust + 1250 * (c4Start.goal.z - (AccSample.mk (1/2)).z) ∧
        (handleAccTelemetry c4Start ⟨1/2⟩).nextSetpoint.thrust
            = (jsRound (clampThrust
                (c4Start.goal.thrust + 1250 * (c4Start.goal.z - (AccSample.mk (1/2)).z))) : ℚ) ∧
        (handleAccTelemetry c4Start ⟨1/2⟩).nextSetpoint.roll = c4Start.nextSetpoint.roll ∧
        (handleAccTelemetry c4Start ⟨1/2⟩).nextSetpoint.pitch = c4Start.nextSetpoint.pitch ∧
        (handleAccTelemetry c4Start ⟨1/2⟩).nextSetpoint.yaw = c4Start.nextSetpoint.yaw
      else
        (handleAccTelemetry c4Start ⟨1/2⟩).goal.thrust = c4Start.goal.thrust ∧
        (handleAccTelemetry c4Start ⟨1/2⟩).nextSetpoint = c4Start.nextSetpoint) ∧
    (handleAccTelemetry c4Start ⟨1/2⟩).currentSetpoint = c4Start.currentSetpoint ∧
    getThrust (handleAccTelemetry c4Start ⟨1/2⟩) = getThrust c4Start ∧
    (handleAccTelemetry c4Start ⟨1/2⟩).phase = c4Start.phase ∧
    (handleAccTelemetry c4Start ⟨1/2⟩).goal.z = c4Start.goal.z ∧
    (handleAccTelemetry c4Start ⟨1/2⟩).telemetry.acc = some ⟨1/2⟩) :=
  ⟨Or.inl rfl, C4_acc_feedback c4Start ⟨1/2⟩ (Or.inl rfl)⟩

/-- Claim C6: calling `takeoff()` in `waiting` transitions immediately to
`taking-off` with goal altitude 1.5 and goal thrust 35000 and arms the
2000 ms flight timer; when that timer fires, the machine auto-transitions to
`hovering`, the goal altitude is 1.0, and the returned promise resolves with
`'OK'`. -/
theorem C6_takeoff_sequence (s : CopterState) (h : s.phase = Phase.waiting) :
    (takeoff s).phase = Phase.takingOff ∧
    (takeoff s).goal.z = 3/2 ∧
    (takeoff s).goal.thrust = 35000 ∧
    (takeoff s).flightTimerPending = true ∧
    flightDelayMS = 2000 ∧
    (flightTimerFire (takeoff s)).phase = Phase.hovering ∧
    (flightTimerFire (takeoff s)).goal.z = 1 ∧
    (flightTimerFire (takeoff s)).takeoffResolved = s.takeoffResolved ++ ["OK"] := by
  have h1 : takeoff s =
      { enterTakeoff { s with phase := .takingOff } with flightTimerPending := true } := by
    unfold takeoff fireEvent
    simp [h, eventSource, eventDest, leaveHook, enterHook]
  rw [h1]
  have h2 : flightTimerFire
      { enterTakeoff { s with phase := .takingOff } with flightTimerPending := true } =
      stopThrustingUp
        { enterTakeoff { s with phase := .takingOff } with flightTimerPending := false } := by
    unfold flightTimerFire
    rfl
  rw [h2]
  unfold stopThrustingUp fireEvent
  simp [eventSource, eventDest, leaveHook, enterHook, enterTakeoff, enterHovering,
    flightDelayMS]
  norm_num

/-- A freshly connected copter waiting to take off. -/
def c6Waiting : CopterState := { initState with phase := .waiting }

/-- Claim C6, witnessed at a concrete waiting state. -/
theorem C6_takeoff_sequence_witness :
    c6Waiting.phase = Phase.waiting ∧
    ((takeoff c6Waiting).phase = Phase.takingOff ∧
      (takeoff c6Waiting).goal.z = 3/2 ∧
      (takeoff c6Waiting).goal.thrust = 35000 ∧
      (takeoff c6Waiting).flightTimerPending = true ∧
      flightDelayMS = 2000 ∧
      (flightTimerFire (takeoff c6Waiting)).phase = Phase.hovering ∧
      (flightTimerFire (takeoff c6Waiting)).goal.z = 1 ∧
      (flightTimerFire (takeoff c6Waiting)).takeoffResolved
          = c6Waiting.takeoffResolved ++ ["OK"]) :=
  ⟨rfl, C6_takeoff_sequence c6Waiting rfl⟩

/-- Claim C5: calling `land()` in `hovering` enters `landing` and starts the
250 ms landing-ramp interval; each ramp period (the ramp tick plus the pulse
that forwards the staged value into the current setpoint before the next ramp
tick) steps the current thrust down by the 1000-unit step, floored at 10001,
writing it into the goal and the staged/current thrust; on the period in which
the floor is reached, the `landed` transition fires, the phase becomes
`waiting`, the promise resolves with the resulting phase `waiting`, and both
timers stop so the resolution happens exactly once. -/
theorem C5_landing_ramp (s t : CopterState) (m : ℤ)
    (hs : s.phase = Phase.hovering)
    (ht1 : t.phase = Phase.landing) (ht2 : t.hoverTimerActive = true)
    (ht3 : t.pulseActive = true) (ht4 : getThrust t = some (m : ℚ))
    (hm : m ≤ 61000) :
    ((land s).phase = Phase.landing ∧ (land s).hoverTimerActive = true ∧
      (land s).pulseActive = s.pulseActive ∧ getThrust (land s) = getThrust s ∧
      landStepMS = 250 ∧ landThrustStep = 1000) ∧
    (if 10001 < m - 1000 then
        (rampCycle t).phase = Phase.landing ∧
        (rampCycle t).hoverTimerActive = true ∧
        (rampCycle t).pulseActive = true ∧
        (rampCycle t).goal.thrust = (m : ℚ) - 1000 ∧
        getThrust (rampCycle t) = some ((m : ℚ) - 1000) ∧
        (rampCycle t).landResolved = t.landResolved
      else
        (rampCycle t).phase = Phase.waiting ∧
        (rampCycle t).goal.thrust = 10001 ∧
        (rampCycle t).nextSetpoint.thrust = 10001 ∧
        (rampCycle t).landResolved = t.landResolved ++ [Phase.waiting] ∧
        (rampCycle t).hoverTimerActive = false ∧
        (rampCycle t).pulseActive = false ∧
        rampCycle (rampCycle t) = rampCycle t) := by
  constructor
  · have hland : land s =
        { s with phase := Phase.landing, flightTimerPending := false,
                 hoverTimerActive := true } := by
      unfold land fireEvent
      simp [hs, eventSource, eventDest, leaveHook, enterHook]
    rw [hland]
    exact ⟨rfl, rfl, rfl, rfl, rfl, rfl⟩
  · obtain ⟨sp, hsp, hspt⟩ : ∃ sp, t.currentSetpoint = some sp ∧ sp.thrust = (m : ℚ) := by
      unfold getThrust at ht4
      cases hcs : t.currentSetpoint with
      | none => rw [hcs] at ht4; simp at ht4
      | some q =>
        rw [hcs] at ht4
        simp at ht4
        exact ⟨q, rfl, ht4⟩
    by_cases hlt : 10001 < m - 1000
    · rw [if_pos hlt]
      have hqlt : (10001 : ℚ) < (m : ℚ) - 1000 := by exact_mod_cast hlt
      have hqle : (m : ℚ) - 1000 ≤ 60000 := by
        exact_mod_cast (by omega : m - 1000 ≤ (60000 : ℤ))
      have hclamp : clampThrust ((m : ℚ) - 1000) = (m : ℚ) - 1000 :=
        clampThrust_of_mem _ (not_lt.mpr (le_of_lt hqlt)) (not_lt.mpr hqle)
      have hround : ((jsRound ((m : ℚ) - 1000) : ℤ) : ℚ) = (m : ℚ) - 1000 := by
        have hcast : ((m - 1000 : ℤ) : ℚ) = (m : ℚ) - 1000 := by push_cast; ring
        rw [← hcast, jsRound_intCast]
      have hcond : ¬ ((m : ℚ) - 1000 ≤ MIN_THRUST) := not_le.mpr hqlt
      have hne : ¬ ((m : ℚ) - 1000 = MIN_THRUST) := ne_of_gt hqlt
      have hstep : hoverTimerFire t =
          setThrustNum { t with goal := { t.goal with thrust := (m : ℚ) - 1000 } }
            ((m : ℚ) - 1000) := by
        simp only [hoverTimerFire, ht2, if_true, landCurve, hsp, hspt, landThrustStep]
        rw [if_neg hcond, if_neg hne]
      refine ⟨?_, ?_, ?_, ?_, ?_, ?_⟩ <;>
        simp [rampCycle, hstep, pulseFire, pulse, setpoint, setThrustNum, getThrust,
          ht1, ht2, ht3, hclamp, hround]
    · rw [if_neg hlt]
      have hqge : (m : ℚ) - 1000 ≤ 10001 := by
        exact_mod_cast (by omega : m - 1000 ≤ (10001 : ℤ))
      have hcond : ((m : ℚ) - 1000 ≤ MIN_THRUST) := hqge
      have h10001 : ((jsRound (clampThrust ((10001 : ℚ))) : ℤ) : ℚ) = 10001 := by
        rw [clampThrust_of_mem _ (by norm_num) (by norm_num), jsRound_10001]
        norm_num
      have hstep : hoverTimerFire t =
          { t with goal := { t.goal with thrust := MIN_THRUST },
                   nextSetpoint :=
                     { t.nextSetpoint with thrust := (jsRound (clampThrust MIN_THRUST) : ℚ) },
                   hoverTimerActive := false,
                   pulseActive := false,
                   currentSetpoint := some ⟨0, 0, 0, 0⟩,
                   egress := t.egress ++ [⟨0, 0, 0, 0⟩],
                   phase := Phase.waiting,
                   landResolved := t.landResolved ++ [Phase.waiting] } := by
        simp [hoverTimerFire, ht2, landCurve, hsp, hspt, landThrustStep, hcond,
          fireLanded, fireEvent, eventSource, eventDest, leaveHook, enterHook,
          setThrustNum, ht1, leaveLanding_spec]
      have hfinal : rampCycle t =
          { t with goal := { t.goal with thrust := MIN_THRUST },
                   nextSetpoint :=
                     { t.nextSetpoint with thrust := (jsRound (clampThrust MIN_THRUST) : ℚ) },
                   hoverTimerActive := false,
                   pulseActive := false,
                   currentSetpoint := some ⟨0, 0, 0, 0⟩,
                   egress := t.egress ++ [⟨0, 0, 0, 0⟩],
                   phase := Phase.waiting,
                   landResolved := t.landResolved ++ [Phase.waiting] } := by
        unfold rampCycle
        rw [hstep]
        simp [pulseFire]
      rw [hfinal]
      refine ⟨rfl, ?_, ?_, rfl, rfl, rfl, ?_⟩
      · show MIN_THRUST = 10001
        rfl
      · exact h10001
      · simp [rampCycle, hoverTimerFire, pulseFire]

/-- A hovering copter whose current and staged thrust are 37700, as in the
spec's landing scenario. -/
def c5Hover : CopterState :=
  { initState with
    phase := .hovering,
    pulseActive := true,
    currentSetpoint := some ⟨0, 0, 0, 37700⟩,
    nextSetpoint := ⟨0, 0, 0, 37700⟩ }

/-- The state right after calling `land()` on `c5Hover`. -/
def c5Land : CopterState := land c5Hover

/-- Claim C5, witnessed at the spec's landing scenario (thrust 37700). -/
theorem C5_landing_ramp_witness :
    (c5Hover.phase = Phase.hovering ∧ c5Land.phase = Phase.landing ∧
      c5Land.hoverTimerActive = true ∧ c5Land.pulseActive = true ∧
      getThrust c5Land = some ((37700 : ℤ) : ℚ) ∧ (37700 : ℤ) ≤ 61000) ∧
    (((land c5Hover).phase = Phase.landing ∧ (land c5Hover).hoverTimerActive = true ∧
        (land c5Hover).pulseActive = c5Hover.pulseActive ∧
        getThrust (land c5Hover) = getThrust c5Hover ∧
        landStepMS = 250 ∧ landThrustStep = 1000) ∧
      (if 10001 < (37700 : ℤ) - 1000 then
          (rampCycle c5Land).phase = Phase.landing ∧
          (rampCycle c5Land).hoverTimerActive = true ∧
          (rampCycle c5Land).pulseActive = true ∧
          (rampCycle c5Land).goal.thrust = ((37700 : ℤ) : ℚ) - 1000 ∧
          getThrust (rampCycle c5Land) = some (((37700 : ℤ) : ℚ) - 1000) ∧
          (rampCycle c5Land).landResolved = c5Land.landResolved
        else
          (rampCycle c5Land).phase = Phase.waiting ∧
          (rampCycle c5Land).goal.thrust = 10001 ∧
          (rampCycle c5Land).nextSetpoint.thrust = 10001 ∧
          (rampCycle c5Land).landResolved = c5Land.landResolved ++ [Phase.waiting] ∧
          (rampCycle c5Land).hoverTimerActive = false ∧
          (rampCycle c5Land).pulseActive = false ∧
          rampCycle (rampCycle c5Land) = rampCycle c5Land)) := by
  have h1 : c5Hover.phase = Phase.hovering := rfl
  have h2 : c5Land.phase = Phase.landing := by decide
  have h3 : c5Land.hoverTimerActive = true := by decide
  have h4 : c5Land.pulseActive = true := by decide
  have h5 : getThrust c5Land = some ((37700 : ℤ) : ℚ) := by
    show getThrust (land c5Hover) = _
    simp [land, fireEvent, c5Hover, initState, eventSource, eventDest, leaveHook,
      enterHook, getThrust]
  have h6 : (37700 : ℤ) ≤ 61000 := by decide
  exact ⟨⟨h1, h2, h3, h4, h5, h6⟩, C5_landing_ramp c5Hover c5Land 37700 h1 h2 h3 h4 h5 h6⟩

/-- The pulse-timer invariant that actually holds of the code: the pulse
interval is started on entering `taking-off` and cleared only by the
leave-`landing` hook, so it is live exactly in the four in-flight phases,
`landing` included. -/
def pulseInv (s : CopterState) : Prop :=
  s.pulseActive = true ↔
    (s.phase = Phase.takingOff ∨ s.phase = Phase.hovering ∨ s.phase = Phase.moving ∨
      s.phase = Phase.landing)

theorem pulseInv_fireLanded (s1 : CopterState) (h : pulseInv s1) :
    pulseInv (fireLanded s1) := by
  unfold fireLanded
  by_cases hp : s1.phase = eventSource .landed
  · rw [fireEvent_ok _ _ hp]
    simp only [eventSource] at hp
    simp_all [pulseInv, eventDest, leaveHook, enterHook, leaveLanding_spec]
  · rw [show fireEvent .landed s1 = Except.error ⟨s1.phase, .landed, eventSource .landed⟩
        from by unfold fireEvent; exact if_neg hp]
    exact h

theorem pulseInv_fireEventD (e : Event) (s : CopterState) (h : pulseInv s) :
    pulseInv (fireEventD e s) := by
  rw [fireEventD_spec]
  by_cases hp : s.phase = eventSource e
  · rw [if_pos hp]
    cases e <;>
      simp only [eventSource] at hp <;>
      simp_all [pulseInv, eventDest, enterHook, leaveHook, enterTakeoff, enterHovering,
        leaveLanding_spec]
  · rwa [if_neg hp]

theorem pulseInv_step (a : Action) (s : CopterState) (h : pulseInv s) :
    pulseInv (stepAction a s) := by
  cases a with
  | connectStart => exact pulseInv_fireEventD _ _ h
  | connectDone => exact pulseInv_fireEventD _ _ h
  | hoverCall => exact pulseInv_fireEventD _ _ h
  | takeoffCall =>
    by_cases hp : s.phase = Phase.waiting
    · simp_all [stepAction, takeoff, fireEvent, eventSource, eventDest, leaveHook,
        enterHook, enterTakeoff, pulseInv]
    · simp_all [stepAction, takeoff, fireEvent, eventSource, pulseInv]
  | flightFire =>
    show pulseInv (flightTimerFire s)
    unfold flightTimerFire
    by_cases hf : s.flightTimerPending
    · rw [if_pos hf]
      by_cases hp : s.phase = Phase.takingOff
      · simp_all [stopThrustingUp, fireEvent, eventSource, eventDest, leaveHook,
          enterHook, enterHovering, pulseInv]
      · simp_all [stopThrustingUp, fireEvent, eventSource, pulseInv]
    · rwa [if_neg hf]
  | landCall =>
    by_cases hp : s.phase = Phase.hovering
    · simp_all [stepAction, land, fireEvent, eventSource, eventDest, leaveHook,
        enterHook, pulseInv]
    · simp_all [stepAction, land, fireEvent, eventSource, pulseInv]
  | pulseTick =>
    show pulseInv (pulseFire s)
    unfold pulseFire
    by_cases hpt : s.pulseActive
    · rw [if_pos hpt]
      simp_all [pulse, setpoint, pulseInv]
    · rwa [if_neg hpt]
  | rampTick =>
    show pulseInv (hoverTimerFire s)
    unfold hoverTimerFire
    by_cases hht : s.hoverTimerActive
    · rw [if_pos hht]
      cases hcs : s.currentSetpoint with
      | none =>
        simp only [landCurve, hcs]
        exact h
      | some sp =>
        simp only [landCurve, hcs]
        split
        · exact pulseInv_fireLanded _ h
        · split
          · exact pulseInv_fireLanded _ h
          · exact h
    · rwa [if_neg hht]
  | xmodeSet b => exact h
  | rollSet v => exact h
  | pitchSet v => exact h
  | yawSet v => exact h
  | thrustSet t => exact h
  | stabTel d =>
    show pulseInv (handleStabilizerTelemetry s d)
    cases hp : s.phase <;>
      simp_all [handleStabilizerTelemetry, setRoll, setPitch, setYaw, pulseInv]
  | motorTel d => exact h
  | accTel d =>
    show pulseInv (handleAccTelemetry s d)
    cases hp : s.phase <;>
      simp_all [handleAccTelemetry, setThrustNum, pulseInv] <;>
      split <;>
      simp_all
  | gyroTel d => exact h

/-- Claim C3, amended: in every reachable state the pulse timer is active if
and only if the phase is taking-off, hovering, moving, **or landing**: the
timer is started on entering taking-off and stopped only by the hook that runs
on leaving landing, so it is still active while the phase is landing. -/
theorem C3_pulse_iff_flight_phase (s : CopterState) (h : Reachable s) :
    s.pulseActive = true ↔
      (s.phase = Phase.takingOff ∨ s.phase = Phase.hovering ∨ s.phase = Phase.moving ∨
        s.phase = Phase.landing) := by
  have hinv : pulseInv s := by
    induction h with
    | init => simp [pulseInv, initState]
    | step a h ih => exact pulseInv_step a _ ih
  exact hinv

/-- Claim C3, amended, witnessed at the initial state. -/
theorem C3_pulse_iff_flight_phase_witness :
    initState.pulseActive = true ↔
      (initState.phase = Phase.takingOff ∨ initState.phase = Phase.hovering ∨
        initState.phase = Phase.moving ∨ initState.phase = Phase.landing) :=
  C3_pulse_iff_flight_phase initState Reachable.init

/-- A reachable landing state: connect, ready, takeoff, flight timer
(stabilize), land. -/
def c3LandingState : CopterState :=
  stepAction .landCall (stepAction .flightFire (stepAction .takeoffCall
    (stepAction .connectDone (stepAction .connectStart initState))))

/-- Claim C3, counterexample: the trace connect → ready → takeoff →
flight-timer → land reaches a state whose phase is `landing` while the pulse
timer is still active, so the claimed "active iff taking-off, hovering or
moving" equivalence fails on a reachable state. -/
theorem C3_counterexample :
    (Reachable c3LandingState ∧ c3LandingState.phase = Phase.landing ∧
      c3LandingState.pulseActive = true) ∧
    ¬ (∀ s : CopterState, Reachable s →
        (s.pulseActive = true ↔
          (s.phase = Phase.takingOff ∨ s.phase = Phase.hovering ∨
            s.phase = Phase.moving))) := by
  have hr : Reachable c3LandingState :=
    Reachable.step _ (Reachable.step _ (Reachable.step _ (Reachable.step _
      (Reachable.step _ Reachable.init))))
  refine ⟨⟨hr, by decide, by decide⟩, fun hall => ?_⟩
  have hbad := (hall c3LandingState hr).mp (by decide)
  revert hbad
  decide

end Aerogel
